import Mathlib

/-!
# Verification of the Atmos Energy scraping client and regression model

Shallow embedding of `custom_components/atmos_energy/api.py` and
`custom_components/atmos_energy/coordinator.py`.

Modelling conventions:
* Machine floats become exact rationals (`ℚ`); the claims under verification
  involve only exact decimal values, sums and comparisons.
* Payload bytes become a `String` (the source only inspects whitespace,
  ASCII markers and lowercased text prefixes); string scanning is
  implemented over the underlying character lists so that every
  definition evaluates by kernel reduction.
* The result of `pandas.read_excel` (modern engine with `xlrd` fallback) is
  carried alongside the raw bytes in `RawContent.excelTable`: the decoders
  recognise only genuine spreadsheet payloads by their magic bytes, so a
  payload whose stripped bytes start with an HTML/DOCTYPE marker always has
  `excelTable = none`.
* Exceptions become `Except AtmosError`.
-/

deriving instance DecidableEq for Except

/-- The exception taxonomy of `exceptions.py` (messages are irrelevant to the
claims and dropped). -/
inductive AtmosError where
  | authenticationError
  | apiError
  | dataParseError
deriving DecidableEq, Repr

/-- Test whether `pat` occurs as a contiguous run inside `l`. -/
def containsSeq (pat : List Char) : List Char → Bool
  | [] => pat.isEmpty
  | c :: rest => pat.isPrefixOf (c :: rest) || containsSeq pat rest

/-- Test whether `sub` occurs as a contiguous substring of `s` (Python's `in` on `str`). -/
def strContains (s sub : String) : Bool :=
  containsSeq sub.toList s.toList

/-- Python `str.startswith`. -/
def startsWithStr (s p : String) : Bool :=
  p.toList.isPrefixOf s.toList

/-- Python `bytes.lstrip()`: drop leading whitespace. -/
def lstrip (s : String) : String :=
  ⟨s.toList.dropWhile Char.isWhitespace⟩

/-- Python `str.strip()` / `bytes.strip()`: drop whitespace on both ends. -/
def stripStr (s : String) : String :=
  ⟨((s.toList.dropWhile Char.isWhitespace).reverse.dropWhile Char.isWhitespace).reverse⟩

/-- Python `str.lower()` (the payloads at issue are ASCII). -/
def lowerStr (s : String) : String :=
  ⟨s.toList.map Char.toLower⟩

/-- Python slicing `s[:n]`. -/
def takeStr (s : String) (n : Nat) : String :=
  ⟨s.toList.take n⟩

/-- The login-indicator phrase list of `_verify_content` (api.py lines 146-155). -/
def loginIndicators : List String :=
  ["type=\"password\"",
   "name=\"username\"",
   "name=\"password\"",
   "name=\"j_username\"",
   "name=\"j_password\"",
   "sign in to your account",
   "sign in to the account center",
   "<h1>login</h1>"]

/-- The error/session-indicator phrase list of `_verify_content` (api.py lines 162-174). -/
def errorIndicators : List String :=
  ["access denied",
   "session expired",
   "not authorized",
   "temporary problem",
   "session ended",
   "extended inactivity",
   "security measure",
   "invalid username",
   "invalid password",
   "login failed",
   "authentication failed"]

/-- The stripped payload starts with an HTML/DOCTYPE marker
(api.py line 139: `startswith((b"<!DOCTYP", b"<html", b"<HTML"))`). -/
def startsHtmlMarker (s : String) : Bool :=
  startsWithStr s "<!DOCTYP" || startsWithStr s "<html" || startsWithStr s "<HTML"

/-- Embedding of `_verify_content` (api.py lines 132-178): on a payload that looks like
markup, scan the lowercased 10000-character prefix for login indicators and
then for error/session indicators; both phrase sets raise
`AuthenticationError`.  Non-markup and empty payloads pass. -/
def verifyContent (content : String) : Except AtmosError Unit :=
  if content.isEmpty then .ok ()
  else
    let stripped := lstrip content
    if startsHtmlMarker stripped then
      let htmlText := lowerStr (takeStr stripped 10000)
      if loginIndicators.any (fun ind => strContains htmlText ind) then
        .error .authenticationError
      else if errorIndicators.any (fun err => strContains htmlText err) then
        .error .authenticationError
      else .ok ()
    else .ok ()

/-- One spreadsheet cell: `display` is Python `str(value)` (used for date
strings); `numericValue` is `pd.to_numeric(value, errors="coerce")`, `none`
meaning the coercion produced NaN. -/
structure Cell where
  display : String
  numericValue : Option ℚ
deriving DecidableEq, Repr

/-- A decoded spreadsheet: column labels in order, and rows of cells aligned
with the columns. -/
structure DataFrame where
  cols : List String
  rows : List (List Cell)
deriving DecidableEq, Repr

/-- Cell of `row` in column `i` (rows are aligned with the column list; a
missing cell reads as an empty NaN cell, matching pandas' NaN padding). -/
def cellAt (row : List Cell) (i : Nat) : Cell :=
  row.getD i ⟨"", none⟩

/-- The result dictionary of `_parse_xls_data` (api.py lines 288-293). -/
structure ParseResult where
  total_usage : ℚ
  latest_usage : ℚ
  latest_date : Option String
  billing_period_start : Option String
deriving DecidableEq, Repr

/-- A downloaded payload: the raw bytes (`text`) plus the outcome of
spreadsheet decoding on the stripped bytes (`excelTable`), i.e. of
`pd.read_excel(BytesIO(stripped))` with the `xlrd` fallback
(api.py lines 257-262).  Both decoders recognise spreadsheets by their
magic bytes, so HTML documents never decode: a `RawContent` faithful to
pandas has `excelTable = none` whenever the stripped text starts with an
HTML/DOCTYPE marker. -/
structure RawContent where
  text : String
  excelTable : Option DataFrame

/-- Column normalisation `df.columns = [str(c).lower().strip() for c in df.columns]`
(api.py line 268). -/
def normalizedCols (df : DataFrame) : List String :=
  df.cols.map (fun c => stripStr (lowerStr c))

/-- Position of the `consumption` column after normalisation
(api.py line 270; `none` models the missing-column `DataParseError`). -/
def consumptionIdx (df : DataFrame) : Option Nat :=
  (normalizedCols df).findIdx? (fun c => c == "consumption")

/-- Date-column resolution `next((col for col in df.columns if 'date' in col), None)`
(api.py line 274): the first column whose normalised name contains
`date`. -/
def dateColIdx (df : DataFrame) : Option Nat :=
  (normalizedCols df).findIdx? (fun c => strContains c "date")

/-- The body of `_parse_impl` after a successful decode
(api.py lines 267-293): lowercase/strip the column labels, require a
`consumption` column, locate the first column whose name contains `date`,
coerce the consumption column to numeric dropping NaN rows, and report the
sum, the last value, and the first/last date strings. -/
def parseTable (df : DataFrame) : Except AtmosError ParseResult :=
  match consumptionIdx df with
  | none => .error .dataParseError
  | some ci =>
    let dateIdx := dateColIdx df
    let kept := df.rows.filter (fun row => ((cellAt row ci).numericValue).isSome)
    let total_usage := (kept.map (fun row => ((cellAt row ci).numericValue).getD 0)).sum
    let latest_usage :=
      match kept.getLast? with
      | some lastRow => ((cellAt lastRow ci).numericValue).getD 0
      | none => 0
    let latest_date :=
      match dateIdx, kept.getLast? with
      | some di, some lastRow => some (cellAt lastRow di).display
      | _, _ => none
    let billing_period_start :=
      match dateIdx, kept.head? with
      | some di, some firstRow => some (cellAt firstRow di).display
      | _, _ => none
    .ok ⟨total_usage, latest_usage, latest_date, billing_period_start⟩

/-- Embedding of `_parse_xls_data` (api.py lines 247-296): verify the raw content, then
decode the stripped bytes as a spreadsheet (`DataParseError` when neither
engine succeeds), then process the decoded table. -/
def parseXlsData (c : RawContent) : Except AtmosError ParseResult := do
  let _ ← verifyContent c.text
  match c.excelTable with
  | none => .error .dataParseError
  | some df => parseTable df

/-- Outcome of one HTTP attempt inside `_request_with_retry`: either the
request raised a transport error or timeout (`aiohttp.ClientError` /
`asyncio.TimeoutError`), or a response with the given status arrived. -/
inductive AttemptOutcome where
  | exnTransport
  | response (status : Nat)
deriving DecidableEq, Repr

/-- Observable behaviour of one `_request_with_retry` call: the returned
status (or raised error), the exponential-backoff sleeps performed
(seconds, in order), and how many attempts were entered. -/
structure RetryTrace where
  result : Except AtmosError Nat
  sleeps : List Nat
  attemptsMade : Nat
deriving DecidableEq, Repr

/-- The body of the retry loop of `_request_with_retry`
(api.py lines 69-97), driven by `outcome`, the attempt-indexed environment.
`fuel` is the number of loop iterations left; `fuel = 1` is the last
attempt (`attempt == max_retries - 1`).  On a 200/302 response the call
returns; on a 5xx response the loop retries with NO backoff sleep (the
sleep sits only in the `except` handler); any other status raises
`APIError` at once; a transport error/timeout retries after sleeping
`2 ** attempt` seconds.  Exhausting the loop raises `APIError`
(api.py line 97). -/
def retryFrom (outcome : Nat → AttemptOutcome) (attempt : Nat) : Nat → RetryTrace
  | 0 => ⟨.error .apiError, [], 0⟩
  | fuel + 1 =>
    match outcome attempt with
    | .response s =>
      if s = 200 ∨ s = 302 then ⟨.ok s, [], 1⟩
      else if s = 500 ∨ s = 502 ∨ s = 503 ∨ s = 504 then
        if fuel = 0 then ⟨.error .apiError, [], 1⟩
        else
          let t := retryFrom outcome (attempt + 1) fuel
          ⟨t.result, t.sleeps, t.attemptsMade + 1⟩
      else ⟨.error .apiError, [], 1⟩
    | .exnTransport =>
      if fuel = 0 then ⟨.error .apiError, [], 1⟩
      else
        let t := retryFrom outcome (attempt + 1) fuel
        ⟨t.result, 2 ^ attempt :: t.sleeps, t.attemptsMade + 1⟩

/-- Embedding of `_request_with_retry` (api.py lines 54-97) with its default
`max_retries = 3`, as a function of the attempt outcomes. -/
def requestWithRetry (outcome : Nat → AttemptOutcome) (maxRetries : Nat) : RetryTrace :=
  retryFrom outcome 0 maxRetries

/-- A parsed usage record as stored in `self._history` by the coordinator:
the raw `date` string (possibly with a time part; possibly missing), the
daily consumption and the average temperature.  Floats become exact
rationals. -/
structure UsageRecord where
  date : Option String
  usage : ℚ
  avg_temp : Option ℚ
deriving DecidableEq, Repr

/-- The in-memory history `self._history`: a date-keyed mapping modelled as
an association list in dict insertion order. -/
abbrev History := List (String × UsageRecord)

/-- Python `s.split(sep)` for a single-character separator, over character
lists (`"".split(sep) = [""]`, empty runs kept). -/
def splitOnChar (sep : Char) : List Char → List (List Char)
  | [] => [[]]
  | c :: rest =>
    let r := splitOnChar sep rest
    if c = sep then [] :: r
    else
      match r with
      | [] => [[c]]
      | g :: gs => (c :: g) :: gs

/-- Key normalisation `date_str.split(" ")[0]` (coordinator.py line 248):
`YYYY-MM-DD HH:MM:SS` to `YYYY-MM-DD`. -/
def normalizeDateKey (d : String) : String :=
  ⟨(splitOnChar ' ' d.toList).headD []⟩

/-- The date-key under which a record is merged, `none` when the record is
skipped (`record.get("date")` missing or empty, which is falsy in Python;
coordinator.py line 247). -/
def recKey (rec : UsageRecord) : Option String :=
  match rec.date with
  | none => none
  | some d => if d = "" then none else some (normalizeDateKey d)

/-- One iteration of the merge loop (coordinator.py lines 244-252): insert
the record under its normalised date-key only when the key is absent. -/
def insertRecord (hist : History) (rec : UsageRecord) : History :=
  match recKey rec with
  | none => hist
  | some key =>
    match hist.lookup key with
    | some _ => hist
    | none => hist ++ [(key, rec)]

/-- The merge loop over a downloaded batch (coordinator.py lines 244-252). -/
def mergeRecords (hist : History) (recs : List UsageRecord) : History :=
  recs.foldl insertRecord hist

/-- Gregorian leap year (as in Python's `datetime`). -/
def isLeapYear (y : Nat) : Bool :=
  y % 4 = 0 && (y % 100 ≠ 0 || y % 400 = 0)

/-- Length of month `m` (1-12) of year `y`. -/
def daysInMonth (y m : Nat) : Nat :=
  if m = 2 then (if isLeapYear y then 29 else 28)
  else if m = 4 ∨ m = 6 ∨ m = 9 ∨ m = 11 then 30
  else 31

/-- Days from 1970-01-01 to the civil date `y-m-d` (y ≥ 1, 1 ≤ m ≤ 12);
Howard Hinnant's `days_from_civil` algorithm. -/
def daysFromCivil (y m d : Nat) : Int :=
  let y' := if m ≤ 2 then y - 1 else y
  let era := y' / 400
  let yoe := y' % 400
  let mp := (m + 9) % 12
  let doy := (153 * mp + 2) / 5 + d - 1
  let doe := yoe * 365 + yoe / 4 - yoe / 100 + doy
  (era * 146097 + doe : Int) - 719468

/-- Decimal digits to a number (`none` when empty or non-digit characters
appear), as `strptime`'s `%Y`/`%m`/`%d` field conversion. -/
def digitsToNat (l : List Char) : Option Nat :=
  if l.isEmpty then none
  else if l.all Char.isDigit then
    some (l.foldl (fun acc c => acc * 10 + (c.toNat - 48)) 0)
  else none

/-- Shared field validation of the two `strptime` formats: `%Y` is exactly
4 digits, `%m` and `%d` are 1-2 digits, and the date must exist on the
calendar (`datetime` raises `ValueError` otherwise). -/
def mkValidDate (ys ms ds : List Char) : Option (Nat × Nat × Nat) :=
  match digitsToNat ys, digitsToNat ms, digitsToNat ds with
  | some y, some m, some d =>
    if ys.length = 4 ∧ (ms.length = 1 ∨ ms.length = 2) ∧ (ds.length = 1 ∨ ds.length = 2)
        ∧ 1 ≤ y ∧ 1 ≤ m ∧ m ≤ 12 ∧ 1 ≤ d ∧ d ≤ daysInMonth y m then
      some (y, m, d)
    else none
  | _, _, _ => none

/-- Embedding of `datetime.strptime(s, "%Y-%m-%d")`. -/
def parseYMD (s : String) : Option (Nat × Nat × Nat) :=
  match splitOnChar '-' s.toList with
  | [ys, ms, ds] => mkValidDate ys ms ds
  | _ => none

/-- Embedding of `datetime.strptime(s, "%m/%d/%Y")`, the US date format. -/
def parseMDY (s : String) : Option (Nat × Nat × Nat) :=
  match splitOnChar '/' s.toList with
  | [ms, ds, ys] => mkValidDate ys ms ds
  | _ => none

/-- Outcome of the coordinator's per-key date parsing
(coordinator.py lines 258-268) on the Home Assistant runtime this
integration requires.  `dt_util.parse_datetime` (ciso8601-backed there)
parses a bare `YYYY-MM-DD` key itself and returns a timezone-NAIVE
midnight — so the `%Y-%m-%d` strptime fallback on line 262 is dead code —
while a `MM/DD/YYYY` key falls through to `strptime` plus
`dt_util.as_local`, which yields an AWARE local midnight.  Day values are
day ordinals (days since the epoch). -/
inductive ParsedKey where
  | naive (d : Int)
  | aware (d : Int)
  | unparsed
deriving DecidableEq, Repr

/-- Date parsing of the pruning pass (coordinator.py lines 258-268): a
`YYYY-MM-DD` key parses via `dt_util.parse_datetime` to a NAIVE datetime;
a `MM/DD/YYYY` key parses via the `strptime`/`as_local` fallback to an
AWARE one; keys in neither format stay unparsed (`if dt` is falsy and the
key is never pruned).  Keys with a time part, also handled directly by
`parse_datetime`, are outside the two formats the claims cover. -/
def parseDateKey (s : String) : ParsedKey :=
  match parseYMD s with
  | some (y, m, d) => .naive (daysFromCivil y m d)
  | none =>
    match parseMDY s with
    | some (y, m, d) => .aware (daysFromCivil y m d)
    | none => .unparsed

/-- One step of the stale-key collection loop (coordinator.py
lines 257-271): `now` is the current aware local time in days since the
epoch (a rational: day ordinal plus time of day), so the cutoff is
`now - 90`.  An unparsed key is skipped; an aware midnight is compared
against the aware cutoff; a NAIVE midnight makes `dt < cutoff` raise
`TypeError: can't compare offset-naive and offset-aware datetimes`,
modelled as the `Except` error case. -/
def pruneClassify (now : ℚ) (k : String) : Except Unit Bool :=
  match parseDateKey k with
  | .unparsed => .ok false
  | .aware d => .ok (decide ((d : ℚ) < now - 90))
  | .naive _ => .error ()

/-- The stale-key collection loop of the prune pass (coordinator.py
lines 256-271) over the history keys in order, aborting at the first key
whose comparison raises. -/
def collectStaleKeys (now : ℚ) : List String → Except Unit (List String)
  | [] => .ok []
  | k :: ks =>
    match pruneClassify now k with
    | .error e => .error e
    | .ok stale =>
      match collectStaleKeys now ks with
      | .error e => .error e
      | .ok rest => .ok (if stale then k :: rest else rest)

/-- The pruning pass (coordinator.py lines 254-276): collect the stale
keys, then delete them.  A `TypeError` raised while collecting propagates
out of `_async_update_data` (the broad `except Exception` at line 299
turns it into a failed cycle) BEFORE the deletion loop runs, so the error
case leaves `self._history` unmodified and carries no history. -/
def pruneHistory (now : ℚ) (hist : History) : Except Unit History :=
  match collectStaleKeys now (hist.map Prod.fst) with
  | .error e => .error e
  | .ok stale => .ok (hist.filter (fun p => !(stale.contains p.1)))

/-- The regression coefficients and fit state owned by the coordinator
(`self.base_load`, `self.heating_coeff`, `self.balance_temp`,
`self.r_squared`, `self._last_optimization_count`;
coordinator.py lines 43-47). -/
structure ModelState where
  base_load : ℚ
  heating_coeff : ℚ
  balance_temp : ℚ
  r_squared : ℚ
  last_optimization_count : Nat
deriving DecidableEq, Repr

/-- Modelled from the spec: `DEFAULT_BASE_LOAD` is imported by
coordinator.py from `const.py` but missing from the source tree; the spec
constrains the default model only through `base_load: real ≥ 0.1`.  The
verified statements use the constant symbolically. -/
def DEFAULT_BASE_LOAD : ℚ := 1/2

/-- Modelled from the spec: `DEFAULT_HEATING_COEFF` is imported by
coordinator.py from `const.py` but missing from the source tree; the spec
constrains it only through `heating_coeff: real ≥ 0`.  The verified
statements use the constant symbolically. -/
def DEFAULT_HEATING_COEFF : ℚ := 1/10

/-- Modelled from the spec: `DEFAULT_BALANCE_TEMP` is imported by
coordinator.py from `const.py` but missing from the source tree; the
spec's forecasting formula uses a balance temperature of 65°F and requires
`balance_temp ∈ [50, 80]`. -/
def DEFAULT_BALANCE_TEMP : ℚ := 65

/-- Python `round(q, d)` on the exact rational value: round to `d` decimal
places.  (Python rounds ties to even over binary floats; the verified
statements involve no ties, so nearest-rounding with half-up is a faithful
model here.) -/
def roundTo (q : ℚ) (d : Nat) : ℚ :=
  (⌊q * 10 ^ d + 1 / 2⌋ : ℚ) / 10 ^ d

/-- Embedding of `_fit_linear_regression` (coordinator.py lines 197-223): ordinary least
squares returning `(slope, intercept, sse, r_squared)`, or `none` in the
denominator-zero branch (the source's `(None, None, inf, 0)`, which every
caller guards with `slope is not None`). -/
def fitLinearRegression (x_values y_values : List ℚ) : Option (ℚ × ℚ × ℚ × ℚ) :=
  let n : ℚ := x_values.length
  let sum_x := x_values.sum
  let sum_y := y_values.sum
  let sum_xy := ((x_values.zip y_values).map (fun p => p.1 * p.2)).sum
  let sum_x2 := (x_values.map (fun x => x * x)).sum
  let denominator := n * sum_x2 - sum_x ^ 2
  if denominator = 0 then none
  else
    let slope := (n * sum_xy - sum_x * sum_y) / denominator
    let intercept := (sum_y - slope * sum_x) / n
    let y_mean := sum_y / n
    let ss_tot := (y_values.map (fun y => (y - y_mean) ^ 2)).sum
    let sse := ((x_values.zip y_values).map
      (fun p => (p.2 - (intercept + slope * p.1)) ^ 2)).sum
    let r_squared := if ss_tot > 0 then 1 - sse / ss_tot else 0
    some (slope, intercept, sse, r_squared)

/-- The usable data points of `_recalculate_model`
(coordinator.py lines 100-105): `(avg_temp, usage)` for the records with
non-zero usage and a known temperature, in history order. -/
def usablePoints (hist : History) : List (ℚ × ℚ) :=
  hist.filterMap (fun p =>
    match p.2.avg_temp with
    | some t => if p.2.usage > 0 then some (t, p.2.usage) else none
    | none => none)

/-- The degree-day inputs `x_values = [max(0, bt - temp) for ...]`
(coordinator.py lines 120 and 132). -/
def degreeDays (bt : ℚ) (pts : List (ℚ × ℚ)) : List ℚ :=
  pts.map (fun pt => max 0 (bt - pt.1))

/-- The regression targets `y_values = [usage for ...]`
(coordinator.py lines 121 and 133). -/
def usageValues (pts : List (ℚ × ℚ)) : List ℚ :=
  pts.map (fun pt => pt.2)

/-- One candidate step of the grid search (coordinator.py lines 119-127):
the accumulator is `none` before any candidate fit succeeds
(`best_sse = inf`, `best_model = None`), otherwise
`(best_sse, slope, intercept, balance_temp, r2)`; a candidate whose fit
returns no slope is skipped, and a successful fit wins only on strictly
smaller SSE. -/
def gridStep (pts : List (ℚ × ℚ)) (acc : Option (ℚ × ℚ × ℚ × ℚ × ℚ)) (cand : ℚ) :
    Option (ℚ × ℚ × ℚ × ℚ × ℚ) :=
  match fitLinearRegression (degreeDays cand pts) (usageValues pts) with
  | none => acc
  | some (slope, intercept, sse, r2) =>
    match acc with
    | none => some (sse, slope, intercept, cand, r2)
    | some (best_sse, _, _, _, _) =>
      if sse < best_sse then some (sse, slope, intercept, cand, r2) else acc

/-- The grid candidates `range(55, 76)` as floats (coordinator.py line 119). -/
def gridCandidates : List ℚ :=
  (List.range 21).map (fun i => (55 + i : ℚ))

/-- The full grid search (coordinator.py lines 115-127): best
`(slope, intercept, balance_temp, r2)` over the candidates, `none` when
every candidate was skipped. -/
def gridSearch (pts : List (ℚ × ℚ)) : Option (ℚ × ℚ × ℚ × ℚ) :=
  match gridCandidates.foldl (gridStep pts) none with
  | none => none
  | some (_, slope, intercept, cand, r2) => some (slope, intercept, cand, r2)

/-- The model-installation block of `_recalculate_model`
(coordinator.py lines 141-174): clamp a negative slope to 0, floor a
negative intercept to the minimum base load 0.1, replace a balance
temperature outside [50, 80] by the default, and store the rounded
coefficients. -/
def installModel (st : ModelState) (m : ℚ × ℚ × ℚ × ℚ) : ModelState :=
  let slope := if m.1 < 0 then 0 else m.1
  let intercept := if m.2.1 < 0 then 1/10 else m.2.1
  let balance_temp :=
    if m.2.2.1 < 50 ∨ m.2.2.1 > 80 then DEFAULT_BALANCE_TEMP else m.2.2.1
  { st with
    heating_coeff := roundTo slope 4
    base_load := roundTo intercept 2
    balance_temp := balance_temp
    r_squared := roundTo m.2.2.2 4 }

/-- Embedding of `_recalculate_model` (coordinator.py lines 88-195) as a state
transformer.  Fewer than 10 raw history records: reset to the defaults
with R² = 0.  Fewer than 10 usable points: return with the state
unchanged.  Otherwise fit: a full grid search when at least 10 usable
points accumulated since the last full search (also recording the new
count), else a quick refit at the current balance temperature; a fitted
model, when one exists, is installed through `installModel`. -/
def recalculateModel (hist : History) (st : ModelState) : ModelState :=
  if hist.length < 10 then
    { st with
      base_load := DEFAULT_BASE_LOAD
      heating_coeff := DEFAULT_HEATING_COEFF
      balance_temp := DEFAULT_BALANCE_TEMP
      r_squared := 0 }
  else
    let data_points := usablePoints hist
    if data_points.length < 10 then st
    else
      let current_count := data_points.length
      let needs_full :=
        (current_count : Int) - (st.last_optimization_count : Int) ≥ 10
      if needs_full then
        let st' := { st with last_optimization_count := current_count }
        match gridSearch data_points with
        | some m => installModel st' m
        | none => st'
      else
        match fitLinearRegression (degreeDays st.balance_temp data_points)
            (usageValues data_points) with
        | none => st
        | some (slope, intercept, _, r2) =>
          installModel st (slope, intercept, st.balance_temp, r2)

/-- Spec-side description of the cleaned consumption column: the values of
the rows whose consumption cell coerces to a number, in row order (spec
§4.3: "coerce consumption values to numeric, dropping rows that fail
coercion"). -/
def coercedConsumptions (df : DataFrame) (ci : Nat) : List ℚ :=
  df.rows.filterMap (fun row => (cellAt row ci).numericValue)

/-- The spec's example payload (§8): an HTML/DOCTYPE-marked body holding a
single table with headers `Date, Consumption` and the one row
`("01/30/2026", "10.5")`.  Neither spreadsheet engine decodes an HTML
document, so `excelTable = none`. -/
def htmlUsageTablePayload : RawContent :=
  ⟨"<html><body><table><tr><th>Date</th><th>Consumption</th></tr>" ++
   "<tr><td>01/30/2026</td><td>10.5</td></tr></table></body></html>", none⟩

/-- A portal login page disguised as a download (spec §8's
`<h1>Login</h1>` payload). -/
def loginPagePayload : RawContent :=
  ⟨"<html><body><h1>Login</h1><form action=\"authenticate.html\"></form></body></html>",
   none⟩

/-- A decodable one-column spreadsheet whose single consumption value is
negative. -/
def negConsumptionFrame : DataFrame :=
  ⟨["Consumption"], [[⟨"-5", some (-5)⟩]]⟩

/-- The payload wrapping `negConsumptionFrame` (spreadsheet bytes carry no
HTML marker). -/
def negConsumptionPayload : RawContent :=
  ⟨"xlsbytes", some negConsumptionFrame⟩

/-- A decodable spreadsheet with a date column, two coercible consumption
rows (3 and 4) and one non-coercible row. -/
def sampleUsageFrame : DataFrame :=
  ⟨["Date", "Consumption"],
   [[⟨"01/01/2026", none⟩, ⟨"3", some 3⟩],
    [⟨"01/02/2026", none⟩, ⟨"n/a", none⟩],
    [⟨"01/03/2026", none⟩, ⟨"4", some 4⟩]]⟩

/-- The payload wrapping `sampleUsageFrame`. -/
def sampleUsagePayload : RawContent :=
  ⟨"xlsbytes", some sampleUsageFrame⟩

/-- A decodable spreadsheet in which every consumption value fails numeric
coercion. -/
def allNaNFrame : DataFrame :=
  ⟨["Read Date", "Consumption"],
   [[⟨"01/01/2026", none⟩, ⟨"n/a", none⟩],
    [⟨"01/02/2026", none⟩, ⟨"n/a", none⟩]]⟩

/-- The payload wrapping `allNaNFrame`. -/
def allNaNPayload : RawContent :=
  ⟨"xlsbytes", some allNaNFrame⟩

/-- Ten raw history records, none usable (all have zero usage). -/
def tenZeroUsageHistory : History :=
  [("2026-01-01", ⟨some "2026-01-01", 0, some 60⟩),
   ("2026-01-02", ⟨some "2026-01-02", 0, some 61⟩),
   ("2026-01-03", ⟨some "2026-01-03", 0, some 62⟩),
   ("2026-01-04", ⟨some "2026-01-04", 0, some 63⟩),
   ("2026-01-05", ⟨some "2026-01-05", 0, some 64⟩),
   ("2026-01-06", ⟨some "2026-01-06", 0, some 65⟩),
   ("2026-01-07", ⟨some "2026-01-07", 0, some 66⟩),
   ("2026-01-08", ⟨some "2026-01-08", 0, some 67⟩),
   ("2026-01-09", ⟨some "2026-01-09", 0, some 68⟩),
   ("2026-01-10", ⟨some "2026-01-10", 0, some 69⟩)]

/-- A model state visibly different from the documented defaults. -/
def nonDefaultState : ModelState := ⟨99, 7, 60, 1/2, 0⟩

/-- Ten usable history records with constant usage 0.05 CCF and distinct
temperatures: their least-squares fit has slope 0 and intercept 0.05. -/
def lowInterceptHistory : History :=
  [("d0", ⟨none, 1/20, some 30⟩),
   ("d1", ⟨none, 1/20, some 31⟩),
   ("d2", ⟨none, 1/20, some 32⟩),
   ("d3", ⟨none, 1/20, some 33⟩),
   ("d4", ⟨none, 1/20, some 34⟩),
   ("d5", ⟨none, 1/20, some 35⟩),
   ("d6", ⟨none, 1/20, some 36⟩),
   ("d7", ⟨none, 1/20, some 37⟩),
   ("d8", ⟨none, 1/20, some 38⟩),
   ("d9", ⟨none, 1/20, some 39⟩)]

/-- A model state for which `_recalculate_model` takes the quick-update
path (five points accumulated since the last full optimisation). -/
def quickFitState : ModelState := ⟨1/2, 1/10, 65, 0, 5⟩

/-- A one-day history holding the first observation of 2026-01-30. -/
def mergeSampleHistory : History :=
  [("2026-01-30", ⟨some "2026-01-30", 5, some 40⟩)]

/-- A downloaded batch that re-ingests 2026-01-30 (with different values,
and a time part in the date) and adds 2026-01-31. -/
def mergeSampleBatch : List UsageRecord :=
  [⟨some "2026-01-30 00:00:00", 9, some 41⟩,
   ⟨some "2026-01-31", 6, some 42⟩]

/-- A history with records in both date-key formats, stale and recent
(2025-01-01 is 354 days before `now` = 2026-10-12; 07/01/2026 is 103 days
old; 2026-10-01 and 10/05/2026 are within the window).  Its `YYYY-MM-DD`
keys parse to NAIVE datetimes, so pruning it raises `TypeError`. -/
def pruneSampleHistory : History :=
  [("2025-01-01", ⟨some "2025-01-01", 5, some 30⟩),
   ("07/01/2026", ⟨some "07/01/2026", 2, some 70⟩),
   ("2026-10-01", ⟨some "2026-10-01", 1, some 60⟩),
   ("10/05/2026", ⟨some "10/05/2026", 3, some 55⟩)]

/-- A history whose keys are all in `MM/DD/YYYY` form: one stale record
(07/01/2026, 103 days before `now` = 2026-10-12) and one recent
(10/05/2026).  No key parses to a naive datetime, so the prune pass runs
to completion on it. -/
def mdyOnlyPruneHistory : History :=
  [("07/01/2026", ⟨some "07/01/2026", 2, some 70⟩),
   ("10/05/2026", ⟨some "10/05/2026", 3, some 55⟩)]

/-- Data points whose temperatures are all 80°F: every balance-temperature
candidate at or below 80 yields identical (zero) degree-day values. -/
def flatTempPoints : List (ℚ × ℚ) := [(80, 1), (80, 2)]

theorem containsSeq_iff (pat l : List Char) : containsSeq pat l = true ↔ pat <:+: l := by
  induction l with
  | nil => simp [containsSeq, List.infix_nil, List.isEmpty_iff]
  | cons c rest ih =>
    simp [containsSeq, List.infix_cons_iff, ih, List.isPrefixOf_iff_prefix]

theorem strContains_lower (s sub : String) (h : strContains s sub = true) :
    strContains (lowerStr s) (lowerStr sub) = true :=
  (containsSeq_iff _ _).mpr (((containsSeq_iff _ _).mp h).map Char.toLower)

/-- Claim C4 (confirmed).  A payload whose body looks like markup and whose
scanned prefix contains the phrase `<h1>Login</h1>` makes
`_parse_xls_data` raise `AuthenticationError`, not `DataParseError`: the
content check runs on the raw payload before any spreadsheet decoding is
attempted (the conclusion holds whatever `c.excelTable` is).  The source
scans the lowercased first 10000 characters of the stripped body, which is
where the hypothesis places the phrase. -/
theorem c4_login_phrase_authentication_error (c : RawContent)
    (hMarkup : startsHtmlMarker (lstrip c.text) = true)
    (hPhrase : strContains (takeStr (lstrip c.text) 10000) "<h1>Login</h1>" = true) :
    parseXlsData c = .error .authenticationError := by
  have hne : c.text.isEmpty = false := by
    cases hempty : c.text.isEmpty with
    | false => rfl
    | true =>
      rw [String.isEmpty_iff] at hempty
      rw [hempty] at hMarkup
      exact absurd hMarkup (by decide)
  have hcont : strContains (lowerStr (takeStr (lstrip c.text) 10000)) "<h1>login</h1>" = true := by
    have h := strContains_lower _ _ hPhrase
    rwa [show lowerStr "<h1>Login</h1>" = "<h1>login</h1>" from by decide] at h
  have hany : loginIndicators.any
      (fun ind => strContains (lowerStr (takeStr (lstrip c.text) 10000)) ind) = true := by
    rw [List.any_eq_true]
    exact ⟨"<h1>login</h1>", by decide, hcont⟩
  have hv : verifyContent c.text = .error .authenticationError := by
    simp [verifyContent, hne, hMarkup, hany]
  simp [parseXlsData, hv, Bind.bind, Except.bind]

/-- Claim C4 witness: the concrete login page raises `AuthenticationError`. -/
theorem c4_witness :
    strContains (takeStr (lstrip loginPagePayload.text) 10000) "<h1>Login</h1>" = true ∧
    parseXlsData loginPagePayload = .error .authenticationError :=
  ⟨by decide, c4_login_phrase_authentication_error loginPagePayload (by decide) (by decide)⟩

/-- Claim C1 (corrected).  `_parse_xls_data` performs no HTML table
extraction: every payload is fed to the spreadsheet decoders, and a payload
whose stripped body starts with an HTML/DOCTYPE marker but carries no
login/error indicator passes content verification and then fails
spreadsheet decoding (`excelTable = none`, the behaviour of both pandas
engines on an HTML document), raising `DataParseError` instead of parsing
the table. -/
theorem c1_html_payload_raises_data_parse_error (c : RawContent)
    (_hMarkup : startsHtmlMarker (lstrip c.text) = true)
    (hVerify : verifyContent c.text = .ok ())
    (hNoExcel : c.excelTable = none) :
    parseXlsData c = .error .dataParseError := by
  simp [parseXlsData, hVerify, hNoExcel, Bind.bind, Except.bind]

set_option maxRecDepth 40000 in
/-- Claim C1 counterexample: the spec's example payload — an HTML body with
one `Date`/`Consumption` table row `("01/30/2026", "10.5")` and no
login/error indicator — does NOT parse to `total_usage == 10.5`; it raises
`DataParseError`. -/
theorem c1_counterexample :
    parseXlsData htmlUsageTablePayload = .error .dataParseError ∧
    startsHtmlMarker (lstrip htmlUsageTablePayload.text) = true := by
  constructor <;> decide

set_option maxRecDepth 40000 in
/-- Claim C1 witness for the amended claim at the concrete example payload. -/
theorem c1_witness :
    verifyContent htmlUsageTablePayload.text = .ok () ∧
    parseXlsData htmlUsageTablePayload = .error .dataParseError :=
  ⟨by decide,
   c1_html_payload_raises_data_parse_error htmlUsageTablePayload (by decide) (by decide) rfl⟩

/-- Claim C10 (confirmed).  A decodable spreadsheet payload with a
consumption column in which every row fails numeric coercion parses
successfully to `total_usage = 0`, `latest_usage = 0` and absent
`latest_date` / `billing_period_start`. -/
theorem c10_all_rows_dropped (c : RawContent) (df : DataFrame) (ci : Nat)
    (hVerify : verifyContent c.text = .ok ())
    (hExcel : c.excelTable = some df)
    (hCol : consumptionIdx df = some ci)
    (hAll : ∀ row ∈ df.rows, (cellAt row ci).numericValue = none) :
    parseXlsData c = .ok ⟨0, 0, none, none⟩ := by
  have hkept : df.rows.filter (fun row => ((cellAt row ci).numericValue).isSome) = [] := by
    rw [List.filter_eq_nil_iff]
    intro row hrow
    simp [hAll row hrow]
  cases hdi : dateColIdx df <;>
    simp [parseXlsData, hVerify, hExcel, Bind.bind, Except.bind, parseTable, hCol, hkept, hdi]

/-- Claim C10 witness: the concrete all-NaN spreadsheet parses to the empty
result. -/
theorem c10_witness : parseXlsData allNaNPayload = .ok ⟨0, 0, none, none⟩ :=
  c10_all_rows_dropped allNaNPayload allNaNFrame 1 (by decide) rfl (by decide) (by decide)

theorem filterMap_numericValue (rows : List (List Cell)) (ci : Nat) :
    (rows.filter (fun row => ((cellAt row ci).numericValue).isSome)).map
      (fun row => ((cellAt row ci).numericValue).getD 0)
    = rows.filterMap (fun row => (cellAt row ci).numericValue) := by
  induction rows with
  | nil => rfl
  | cons row rest ih =>
    cases hv : (cellAt row ci).numericValue with
    | none => simp [List.filter_cons, List.filterMap_cons, hv, ih]
    | some q => simp [List.filter_cons, List.filterMap_cons, hv, ih]

/-- Claim C3 (corrected).  On a decodable spreadsheet payload with a
consumption column, `_parse_xls_data` succeeds; `total_usage` is the sum of
the consumption values that coerce to numbers with non-coercible rows
dropped, and `latest_usage` is the consumption of the last remaining row.
The total is non-negative whenever the coercible values are all
non-negative — the parser itself never clamps, so without that assumption
non-negativity fails (see the counterexample). -/
theorem c3_total_is_sum_of_coercions (c : RawContent) (df : DataFrame) (ci : Nat)
    (hVerify : verifyContent c.text = .ok ())
    (hExcel : c.excelTable = some df)
    (hCol : consumptionIdx df = some ci) :
    ∃ r, parseXlsData c = .ok r
      ∧ r.total_usage = (coercedConsumptions df ci).sum
      ∧ r.latest_usage = ((coercedConsumptions df ci).getLast?).getD 0
      ∧ ((∀ q ∈ coercedConsumptions df ci, 0 ≤ q) → 0 ≤ r.total_usage) := by
  have hp : parseXlsData c = parseTable df := by
    simp [parseXlsData, hVerify, hExcel, Bind.bind, Except.bind]
  rw [hp]
  simp only [parseTable, hCol]
  refine ⟨_, rfl, ?_, ?_, ?_⟩
  · rw [coercedConsumptions, ← filterMap_numericValue]
  · rw [coercedConsumptions, ← filterMap_numericValue, List.getLast?_map]
    cases (df.rows.filter (fun row => ((cellAt row ci).numericValue).isSome)).getLast? <;> simp
  · intro h
    rw [coercedConsumptions, ← filterMap_numericValue] at h
    exact List.sum_nonneg h

/-- Claim C3 counterexample: a decodable payload whose single consumption
value is `-5` parses with `total_usage = -5 < 0`, refuting the claimed
unconditional non-negativity. -/
theorem c3_counterexample :
    parseXlsData negConsumptionPayload = .ok ⟨-5, -5, none, none⟩ ∧ (-5 : ℚ) < 0 := by
  constructor
  · simp +decide [parseXlsData, parseTable, verifyContent, Bind.bind, Except.bind,
      consumptionIdx, dateColIdx, normalizedCols, cellAt, negConsumptionPayload,
      negConsumptionFrame]
  · norm_num

/-- Claim C3 witness: on the concrete three-row spreadsheet the parsed total
is the sum of its coercible consumption values. -/
theorem c3_witness :
    (parseXlsData sampleUsagePayload).toOption.map ParseResult.total_usage
      = some ((coercedConsumptions sampleUsageFrame 1).sum) := by
  obtain ⟨r, hr, ht, -, -⟩ :=
    c3_total_is_sum_of_coercions sampleUsagePayload sampleUsageFrame 1 (by decide) rfl (by decide)
  rw [hr]
  simp [Except.toOption, ht]

/-- Claim C2 (corrected).  With fewer than 10 usable points
`_recalculate_model` attempts no fit, but what it leaves behind depends on
the RAW history size: fewer than 10 raw records resets the model to the
documented defaults with R² = 0, while 10 or more raw records (still with
fewer than 10 usable points) returns with the model state unchanged —
defaults are NOT installed in that case. -/
theorem c2_defaults_only_when_raw_short (hist : History) (st : ModelState)
    (h : (usablePoints hist).length < 10) :
    recalculateModel hist st =
      if hist.length < 10 then
        { st with
          base_load := DEFAULT_BASE_LOAD
          heating_coeff := DEFAULT_HEATING_COEFF
          balance_temp := DEFAULT_BALANCE_TEMP
          r_squared := 0 }
      else st := by
  by_cases hlen : hist.length < 10
  · simp [recalculateModel, hlen]
  · simp [recalculateModel, hlen, h]

/-- Claim C2 counterexample: ten raw records with zero usage (no usable
point) leave a non-default model state untouched — neither the default
base load nor `r_squared = 0` is produced, refuting "regardless of how
many raw history entries exist". -/
theorem c2_counterexample :
    recalculateModel tenZeroUsageHistory nonDefaultState = nonDefaultState ∧
    nonDefaultState.base_load ≠ DEFAULT_BASE_LOAD ∧
    nonDefaultState.r_squared ≠ 0 := by
  refine ⟨?_, ?_, ?_⟩
  · simp +decide [recalculateModel, tenZeroUsageHistory, usablePoints]
  · norm_num [nonDefaultState, DEFAULT_BASE_LOAD]
  · norm_num [nonDefaultState]

/-- Claim C2 witness: an empty history resets a non-default state to the
documented defaults. -/
theorem c2_witness :
    recalculateModel [] nonDefaultState =
      { nonDefaultState with
        base_load := DEFAULT_BASE_LOAD
        heating_coeff := DEFAULT_HEATING_COEFF
        balance_temp := DEFAULT_BALANCE_TEMP
        r_squared := 0 } := by
  have h := c2_defaults_only_when_raw_short [] nonDefaultState (by decide)
  simpa using h

theorem retryFrom_attemptsMade_le (outcome : Nat → AttemptOutcome) (attempt fuel : Nat) :
    (retryFrom outcome attempt fuel).attemptsMade ≤ fuel := by
  induction fuel generalizing attempt with
  | zero => simp [retryFrom]
  | succ k ih =>
    cases h : outcome attempt with
    | response s =>
      simp only [retryFrom, h]
      split
      · simp
      · split
        · split
          · simp
          · have := ih (attempt + 1)
            simp
            omega
        · simp
    | exnTransport =>
      simp only [retryFrom, h]
      split
      · simp
      · have := ih (attempt + 1)
        simp
        omega

/-- Claim C5 (corrected).  `_request_with_retry` makes at most 3 attempts;
200/302 succeed immediately; a non-5xx failure status raises at once
without retry; transport errors/timeouts are retried after backoff sleeps
of 1s and then 2s (the 4s step of the `2 ** attempt` schedule is never
reached because the third attempt raises instead of sleeping); 5xx
responses are retried WITHOUT any backoff sleep (the sleep sits only in
the transport-exception handler); exhaustion surfaces `APIError`. -/
theorem c5_retry_policy (outcome : Nat → AttemptOutcome) :
    (requestWithRetry outcome 3).attemptsMade ≤ 3
  ∧ requestWithRetry (fun _ => .exnTransport) 3 = ⟨.error .apiError, [1, 2], 3⟩
  ∧ requestWithRetry (fun _ => .response 503) 3 = ⟨.error .apiError, [], 3⟩
  ∧ requestWithRetry (fun n => if n = 0 then .response 503 else .response 200) 3
      = ⟨.ok 200, [], 2⟩
  ∧ requestWithRetry (fun _ => .response 404) 3 = ⟨.error .apiError, [], 1⟩
  ∧ requestWithRetry (fun _ => .response 200) 3 = ⟨.ok 200, [], 1⟩
  ∧ requestWithRetry (fun _ => .response 302) 3 = ⟨.ok 302, [], 1⟩ :=
  ⟨retryFrom_attemptsMade_le outcome 0 3, by decide, by decide, by decide, by decide,
   by decide, by decide⟩

/-- Claim C5 counterexample: a request that receives 500 on every attempt is
retried to exhaustion (3 attempts) with NO backoff sleeps — the claimed
1s/2s/4s sleeps before each retry do not happen for 5xx responses. -/
theorem c5_counterexample :
    (requestWithRetry (fun _ => .response 500) 3).attemptsMade = 3 ∧
    (requestWithRetry (fun _ => .response 500) 3).sleeps = [] := by
  constructor <;> decide

theorem lookup_append_of_some (l l' : History) (k : String) (v : UsageRecord)
    (h : l.lookup k = some v) : (l ++ l').lookup k = some v := by
  induction l with
  | nil => simp [List.lookup] at h
  | cons p rest ih =>
    obtain ⟨pk, pv⟩ := p
    rw [List.cons_append]
    rw [List.lookup] at h ⊢
    cases hbeq : (k == pk) with
    | true => rw [hbeq] at h; simpa using h
    | false => rw [hbeq] at h; exact ih h

theorem lookup_append_right_new (l : History) (k : String) (v : UsageRecord)
    (h : l.lookup k = none) : (l ++ [(k, v)]).lookup k = some v := by
  induction l with
  | nil => simp [List.lookup]
  | cons p rest ih =>
    obtain ⟨pk, pv⟩ := p
    rw [List.cons_append]
    rw [List.lookup] at h ⊢
    cases hbeq : (k == pk) with
    | true => rw [hbeq] at h; simp at h
    | false => rw [hbeq] at h; exact ih h

theorem lookup_insertRecord_of_some (hist : History) (r : UsageRecord) (k : String)
    (v : UsageRecord) (h : hist.lookup k = some v) :
    (insertRecord hist r).lookup k = some v := by
  cases hrk : recKey r with
  | none => simpa [insertRecord, hrk] using h
  | some key =>
    cases hl : hist.lookup key with
    | some w => simpa [insertRecord, hrk, hl] using h
    | none =>
      simp only [insertRecord, hrk, hl]
      exact lookup_append_of_some hist _ k v h

theorem lookup_mergeRecords_of_some (hist : History) (recs : List UsageRecord)
    (k : String) (v : UsageRecord) (h : hist.lookup k = some v) :
    (mergeRecords hist recs).lookup k = some v := by
  induction recs generalizing hist with
  | nil => exact h
  | cons a rs ih =>
    rw [mergeRecords, List.foldl_cons]
    exact ih (insertRecord hist a) (lookup_insertRecord_of_some hist a k v h)

theorem lookup_none_not_mem_keys (l : History) (k : String) (h : l.lookup k = none) :
    k ∉ l.map Prod.fst := by
  induction l with
  | nil => simp
  | cons p rest ih =>
    obtain ⟨pk, pv⟩ := p
    rw [List.lookup] at h
    intro hmem
    rcases List.mem_cons.mp hmem with heq | hmem'
    · rw [heq] at h
      simp at h
    · cases hbeq : (k == pk) with
      | true => rw [hbeq] at h; simp at h
      | false => rw [hbeq] at h; exact ih h hmem'

theorem keys_nodup_insertRecord (hist : History) (r : UsageRecord)
    (h : (hist.map Prod.fst).Nodup) : ((insertRecord hist r).map Prod.fst).Nodup := by
  cases hrk : recKey r with
  | none => simpa [insertRecord, hrk] using h
  | some key =>
    cases hl : hist.lookup key with
    | some w => simpa [insertRecord, hrk, hl] using h
    | none =>
      simp only [insertRecord, hrk, hl, List.map_append, List.map_cons, List.map_nil]
      rw [List.nodup_append]
      refine ⟨h, List.nodup_singleton _, ?_⟩
      intro a ha hb
      rw [List.mem_singleton] at hb
      subst hb
      exact lookup_none_not_mem_keys hist a hl ha

theorem keys_nodup_mergeRecords (hist : History) (recs : List UsageRecord)
    (h : (hist.map Prod.fst).Nodup) : ((mergeRecords hist recs).map Prod.fst).Nodup := by
  induction recs generalizing hist with
  | nil => exact h
  | cons a rs ih =>
    rw [mergeRecords, List.foldl_cons]
    exact ih (insertRecord hist a) (keys_nodup_insertRecord hist a h)

theorem insertRecord_key_isSome (hist : History) (r : UsageRecord) (key : String)
    (h : recKey r = some key) : ((insertRecord hist r).lookup key).isSome := by
  cases hl : hist.lookup key with
  | some w => simp [insertRecord, h, hl]
  | none => simp [insertRecord, h, hl, lookup_append_right_new hist key r hl]

theorem lookup_isSome_mergeRecords (hist : History) (recs : List UsageRecord) (k : String)
    (h : (hist.lookup k).isSome) : ((mergeRecords hist recs).lookup k).isSome := by
  obtain ⟨v, hv⟩ := Option.isSome_iff_exists.mp h
  exact Option.isSome_iff_exists.mpr ⟨v, lookup_mergeRecords_of_some hist recs k v hv⟩

theorem mergeRecords_batch_key_isSome (hist : History) (recs : List UsageRecord)
    (r : UsageRecord) (key : String) (hr : r ∈ recs) (hk : recKey r = some key) :
    ((mergeRecords hist recs).lookup key).isSome := by
  induction recs generalizing hist with
  | nil => cases hr
  | cons a rs ih =>
    rw [mergeRecords, List.foldl_cons]
    rcases List.mem_cons.mp hr with heq | hmem
    · subst heq
      exact lookup_isSome_mergeRecords (insertRecord hist r) rs key
        (insertRecord_key_isSome hist r key hk)
    · exact ih (insertRecord hist a) hmem

theorem insertRecord_noop (hist : History) (r : UsageRecord)
    (h : ∀ key, recKey r = some key → (hist.lookup key).isSome) :
    insertRecord hist r = hist := by
  cases hrk : recKey r with
  | none => simp [insertRecord, hrk]
  | some key =>
    obtain ⟨v, hv⟩ := Option.isSome_iff_exists.mp (h key hrk)
    simp [insertRecord, hrk, hv]

theorem mergeRecords_noop (hist : History) (recs : List UsageRecord)
    (h : ∀ r ∈ recs, ∀ key, recKey r = some key → (hist.lookup key).isSome) :
    mergeRecords hist recs = hist := by
  induction recs with
  | nil => rfl
  | cons a rs ih =>
    rw [mergeRecords, List.foldl_cons, insertRecord_noop hist a (h a (by simp))]
    exact ih (fun r hr key hk => h r (by simp [hr]) key hk)

/-- Claim C6 (confirmed).  The merge loop inserts a record only when its
normalised date-key is absent: every previously stored record survives a
merge unchanged (never overwritten), re-merging the same batch is a no-op
(idempotence), and key-uniqueness of the history is preserved. -/
theorem c6_merge_idempotent_no_overwrite (hist : History) (recs : List UsageRecord) :
    (∀ k v, hist.lookup k = some v → (mergeRecords hist recs).lookup k = some v)
  ∧ mergeRecords (mergeRecords hist recs) recs = mergeRecords hist recs
  ∧ ((hist.map Prod.fst).Nodup → ((mergeRecords hist recs).map Prod.fst).Nodup) := by
  refine ⟨fun k v h => lookup_mergeRecords_of_some hist recs k v h, ?_,
    fun h => keys_nodup_mergeRecords hist recs h⟩
  apply mergeRecords_noop
  intro r hr key hk
  exact mergeRecords_batch_key_isSome hist recs r key hr hk

/-- Claim C6 witness: re-ingesting 2026-01-30 (with different values) leaves
the stored record unchanged, and merging the same batch twice equals
merging it once. -/
theorem c6_witness :
    (mergeRecords mergeSampleHistory mergeSampleBatch).lookup "2026-01-30"
      = some ⟨some "2026-01-30", 5, some 40⟩
    ∧ mergeRecords (mergeRecords mergeSampleHistory mergeSampleBatch) mergeSampleBatch
      = mergeRecords mergeSampleHistory mergeSampleBatch :=
  ⟨(c6_merge_idempotent_no_overwrite mergeSampleHistory mergeSampleBatch).1 _ _ (by decide),
   (c6_merge_idempotent_no_overwrite mergeSampleHistory mergeSampleBatch).2.1⟩

/-- Claim C7 (code_bug).  The claim matches the source's intent — the
comment at coordinator.py line 261 ("Fallback for keys like YYYY-MM-DD")
and the repository test `test_date_parsing_robustness` (which asserts
`"2025-01-01"` lands in `keys_to_remove`) both expect stale keys of
either format to be pruned — but on the required runtime
`dt_util.parse_datetime` returns a NAIVE midnight for a `YYYY-MM-DD` key,
and comparing it with the aware cutoff raises `TypeError`: the prune pass
aborts with the history unchanged, so a stale `YYYY-MM-DD` record is NOT
absent afterwards.  With only `MM/DD/YYYY` keys the comparison is
aware-vs-aware and pruning behaves exactly as the claim states: the stale
record is removed, the in-window record retained. -/
theorem c7_prune_aborts_on_ymd_key :
    pruneHistory 20738 pruneSampleHistory = .error ()
  ∧ pruneHistory 20738 mdyOnlyPruneHistory =
      .ok [("10/05/2026", ⟨some "10/05/2026", 3, some 55⟩)] := by
  constructor
  · decide
  · have h1 : pruneClassify 20738 "07/01/2026" = .ok true := by
      have hp : parseDateKey "07/01/2026" = .aware 20635 := by decide
      norm_num [pruneClassify, hp]
    have h2 : pruneClassify 20738 "10/05/2026" = .ok false := by
      have hp : parseDateKey "10/05/2026" = .aware 20731 := by decide
      norm_num [pruneClassify, hp]
    simp +decide [pruneHistory, collectStaleKeys, mdyOnlyPruneHistory, h1, h2]

theorem foldl_invariant {α β : Type _} (f : β → α → β) (P : β → Prop)
    (step : ∀ b a, P b → P (f b a)) :
    ∀ (l : List α) (b : β), P b → P (l.foldl f b) := by
  intro l
  induction l with
  | nil => intro b hb; exact hb
  | cons a as ih => intro b hb; exact ih (f b a) (step b a hb)

theorem fit_allEqual_none (xs ys : List ℚ) (c : ℚ) (h : ∀ x ∈ xs, x = c) :
    fitLinearRegression xs ys = none := by
  have hrep : xs = List.replicate xs.length c := List.eq_replicate_of_mem h
  have hsum : xs.sum = (xs.length : ℚ) * c := by
    conv_lhs => rw [hrep]
    rw [List.sum_replicate]
    simp [nsmul_eq_mul]
  have hsum2 : (xs.map (fun x => x * x)).sum = (xs.length : ℚ) * (c * c) := by
    conv_lhs => rw [hrep]
    rw [List.map_replicate, List.sum_replicate]
    simp [nsmul_eq_mul]
  have hden : (xs.length : ℚ) * (xs.map (fun x => x * x)).sum - xs.sum ^ 2 = 0 := by
    rw [hsum, hsum2]; ring
  simp [fitLinearRegression, hden]

theorem gridStep_balance_fit_isSome (pts : List (ℚ × ℚ))
    (acc : Option (ℚ × ℚ × ℚ × ℚ × ℚ)) (cand : ℚ)
    (hacc : ∀ se s i b r2, acc = some (se, s, i, b, r2) →
      (fitLinearRegression (degreeDays b pts) (usageValues pts)).isSome) :
    ∀ se s i b r2, gridStep pts acc cand = some (se, s, i, b, r2) →
      (fitLinearRegression (degreeDays b pts) (usageValues pts)).isSome := by
  intro se s i b r2 hstep
  rw [gridStep] at hstep
  cases hfit : fitLinearRegression (degreeDays cand pts) (usageValues pts) with
  | none =>
    simp only [hfit] at hstep
    exact hacc se s i b r2 hstep
  | some q =>
    obtain ⟨slope, intercept, sse, r2x⟩ := q
    cases acc with
    | none =>
      simp only [hfit, Option.some.injEq, Prod.mk.injEq] at hstep
      obtain ⟨-, -, -, hb, -⟩ := hstep
      rw [← hb, hfit]
      rfl
    | some a =>
      obtain ⟨bse, bs, bi, bb, br⟩ := a
      simp only [hfit] at hstep
      by_cases hcmp : sse < bse
      · rw [if_pos hcmp] at hstep
        simp only [Option.some.injEq, Prod.mk.injEq] at hstep
        obtain ⟨-, -, -, hb, -⟩ := hstep
        rw [← hb, hfit]
        rfl
      · rw [if_neg hcmp] at hstep
        exact hacc se s i b r2 hstep

theorem gridSearch_balance_fit_isSome (pts : List (ℚ × ℚ)) (s i b r2 : ℚ)
    (h : gridSearch pts = some (s, i, b, r2)) :
    (fitLinearRegression (degreeDays b pts) (usageValues pts)).isSome := by
  have inv := foldl_invariant (gridStep pts)
    (fun acc => ∀ se s' i' b' r2', acc = some (se, s', i', b', r2') →
      (fitLinearRegression (degreeDays b' pts) (usageValues pts)).isSome)
    (fun acc cand hacc => gridStep_balance_fit_isSome pts acc cand hacc)
    gridCandidates none (by intro se s' i' b' r2' hc; cases hc)
  rw [gridSearch] at h
  cases hf : gridCandidates.foldl (gridStep pts) none with
  | none => rw [hf] at h; cases h
  | some q =>
    obtain ⟨se, s', i', b', r'⟩ := q
    rw [hf] at h
    simp only [Option.some.injEq, Prod.mk.injEq] at h
    obtain ⟨-, -, hb, -⟩ := h
    have := inv se s' i' b' r' hf
    rwa [hb] at this

/-- Claim C8 (confirmed).  A balance-temperature candidate whose degree-day
inputs are all identical (zero variance) hits the denominator-zero branch
of `_fit_linear_regression`, which returns no slope instead of dividing;
the grid search skips such a candidate, so the selected balance
temperature is never a zero-variance candidate. -/
theorem c8_zero_variance_skipped (pts : List (ℚ × ℚ)) (t : ℚ)
    (h : ∀ x ∈ degreeDays t pts, ∀ y ∈ degreeDays t pts, x = y) :
    fitLinearRegression (degreeDays t pts) (usageValues pts) = none
  ∧ (∀ s i b r2, gridSearch pts = some (s, i, b, r2) → b ≠ t) := by
  have hnone : fitLinearRegression (degreeDays t pts) (usageValues pts) = none := by
    cases hdd : degreeDays t pts with
    | nil => exact fit_allEqual_none _ _ 0 (by simp [hdd])
    | cons c rest =>
      rw [← hdd]
      refine fit_allEqual_none _ _ c ?_
      intro x hx
      exact h x hx c (by rw [hdd]; exact List.mem_cons_self c rest)
  refine ⟨hnone, fun s i b r2 hg heq => ?_⟩
  have hsome := gridSearch_balance_fit_isSome pts s i b r2 hg
  rw [heq, hnone] at hsome
  cases hsome

/-- Claim C8 witness: with every temperature at 80°F, the candidate 65°F has
all-zero degree-day inputs and its fit returns no slope. -/
theorem c8_witness :
    fitLinearRegression (degreeDays 65 flatTempPoints) (usageValues flatTempPoints) = none :=
  (c8_zero_variance_skipped flatTempPoints 65 (by
    intro x hx y hy
    simp [degreeDays, flatTempPoints] at hx hy
    norm_num at hx hy
    rw [hx, hy])).1

theorem roundTo_nonneg (q : ℚ) (d : Nat) (h : 0 ≤ q) : 0 ≤ roundTo q d := by
  rw [roundTo]
  apply div_nonneg
  · have hx : (0 : ℚ) ≤ q * 10 ^ d + 1 / 2 := by positivity
    exact_mod_cast Int.floor_nonneg.mpr hx
  · positivity

theorem installModel_guardrails (st : ModelState) (m : ℚ × ℚ × ℚ × ℚ) :
    0 ≤ (installModel st m).heating_coeff
  ∧ 50 ≤ (installModel st m).balance_temp
  ∧ (installModel st m).balance_temp ≤ 80
  ∧ 0 ≤ (installModel st m).base_load := by
  obtain ⟨slope, intercept, bt, r2⟩ := m
  refine ⟨?_, ?_, ?_, ?_⟩
  · by_cases h1 : slope < 0
    · simp only [installModel, if_pos h1]
      exact roundTo_nonneg 0 4 le_rfl
    · simp only [installModel, if_neg h1]
      exact roundTo_nonneg _ _ (not_lt.mp h1)
  · by_cases h3 : bt < 50 ∨ bt > 80
    · simp only [installModel, if_pos h3]
      norm_num [DEFAULT_BALANCE_TEMP]
    · simp only [installModel, if_neg h3]
      push_neg at h3
      exact h3.1
  · by_cases h3 : bt < 50 ∨ bt > 80
    · simp only [installModel, if_pos h3]
      norm_num [DEFAULT_BALANCE_TEMP]
    · simp only [installModel, if_neg h3]
      push_neg at h3
      exact h3.2
  · by_cases h2 : intercept < 0
    · simp only [installModel, if_pos h2]
      exact roundTo_nonneg _ _ (by norm_num)
    · simp only [installModel, if_neg h2]
      exact roundTo_nonneg _ _ (not_lt.mp h2)

/-- Claim C9 (corrected).  Model recalculation preserves the intended
invariants `heating_coeff ≥ 0`, `balance_temp ∈ [50, 80]` and
`base_load ≥ 0`; a fitted intercept that is NEGATIVE is floored to exactly
0.1.  The stronger claimed bound `base_load ≥ 0.1` does not hold for an
installed fitted model: intercepts in `[0, 0.1)` are installed as-is (see
the counterexample). -/
theorem c9_model_guardrails (hist : History) (st : ModelState)
    (hc : 0 ≤ st.heating_coeff) (hb1 : 50 ≤ st.balance_temp)
    (hb2 : st.balance_temp ≤ 80) (hbase : 0 ≤ st.base_load) :
    (0 ≤ (recalculateModel hist st).heating_coeff
      ∧ 50 ≤ (recalculateModel hist st).balance_temp
      ∧ (recalculateModel hist st).balance_temp ≤ 80
      ∧ 0 ≤ (recalculateModel hist st).base_load)
  ∧ (∀ slope intercept bt r2, intercept < 0 →
      (installModel st (slope, intercept, bt, r2)).base_load = 1 / 10) := by
  constructor
  · by_cases h1 : hist.length < 10
    · simp only [recalculateModel, if_pos h1]
      refine ⟨?_, ?_, ?_, ?_⟩ <;>
        norm_num [DEFAULT_HEATING_COEFF, DEFAULT_BALANCE_TEMP, DEFAULT_BASE_LOAD]
    · by_cases h2 : (usablePoints hist).length < 10
      · simp only [recalculateModel, if_neg h1, if_pos h2]
        exact ⟨hc, hb1, hb2, hbase⟩
      · by_cases h3 : ((usablePoints hist).length : Int)
            - (st.last_optimization_count : Int) ≥ 10
        · simp only [recalculateModel, if_neg h1, if_neg h2, if_pos h3]
          cases hg : gridSearch (usablePoints hist) with
          | some m =>
            simp only [hg]
            exact installModel_guardrails _ m
          | none =>
            simp only [hg]
            exact ⟨hc, hb1, hb2, hbase⟩
        · simp only [recalculateModel, if_neg h1, if_neg h2, if_neg h3]
          cases hf : fitLinearRegression (degreeDays st.balance_temp (usablePoints hist))
              (usageValues (usablePoints hist)) with
          | none =>
            simp only [hf]
            exact ⟨hc, hb1, hb2, hbase⟩
          | some q =>
            obtain ⟨slope, intercept, sse, r2⟩ := q
            simp only [hf]
            exact installModel_guardrails _ _
  · intro slope intercept bt r2 hneg
    have hr : roundTo (1 / 10 : ℚ) 2 = 1 / 10 := by
      rw [roundTo]
      rw [show ((1 : ℚ) / 10 * 10 ^ 2 + 1 / 2) = 21 / 2 by norm_num]
      rw [show ⌊(21 / 2 : ℚ)⌋ = 10 from by
        apply Int.floor_eq_iff.mpr
        constructor <;> norm_num]
      norm_num
    simp only [installModel, if_pos hneg]
    exact hr

/-- Claim C9 counterexample: the quick-path refit of ten constant-usage
(0.05 CCF) points installs a fitted model whose `base_load` is
`0.05 < 0.1` — the fitted intercept lies in `[0, 0.1)` and is not
floored. -/
theorem c9_counterexample :
    (recalculateModel lowInterceptHistory quickFitState).base_load = 1 / 20 ∧
    ((1 : ℚ) / 20) < 1 / 10 := by
  constructor
  · simp +decide [recalculateModel, lowInterceptHistory, quickFitState, usablePoints,
      degreeDays, usageValues, fitLinearRegression, installModel, roundTo]
    norm_num
  · norm_num

/-- Claim C9 witness for the amended invariants at a concrete state and a
concrete negative intercept. -/
theorem c9_witness :
    (0 ≤ (recalculateModel [] nonDefaultState).heating_coeff
      ∧ 50 ≤ (recalculateModel [] nonDefaultState).balance_temp
      ∧ (recalculateModel [] nonDefaultState).balance_temp ≤ 80
      ∧ 0 ≤ (recalculateModel [] nonDefaultState).base_load)
  ∧ (installModel nonDefaultState (0, -1, 65, 0)).base_load = 1 / 10 := by
  have h := c9_model_guardrails [] nonDefaultState (by norm_num [nonDefaultState])
    (by norm_num [nonDefaultState]) (by norm_num [nonDefaultState])
    (by norm_num [nonDefaultState])
  exact ⟨h.1, h.2 0 (-1) 65 0 (by norm_num)⟩

theorem daysFromCivil_epoch : daysFromCivil 1970 1 1 = 0 := by decide

theorem daysFromCivil_leap_day : daysFromCivil 2024 2 29 = 19782 := by decide

theorem parseDateKey_ymd_naive_sample :
    parseDateKey "2025-01-01" = .naive 20089 := by decide

theorem parseDateKey_mdy_aware_sample :
    parseDateKey "01/30/2026" = .aware (daysFromCivil 2026 1 30) := by decide

theorem parseDateKey_rejects_invalid_calendar_date :
    parseDateKey "2026-02-30" = .unparsed := by decide
